import Mathlib

/-!
Verification development for the kubectl-pocket repository.

The definitions below are a shallow embedding of the Go sources:

* `pkg/k8s` (pod lifecycle: `CreatePod`, `DeletePod`, `WaitForPodRunning`,
  `WaitForPodCompletion`, `GetPodLogs`, `Exec`);
* `cmd` (the probe commands `runRedisTest`, `runMongoTest`,
  `runPostgresTest`, the interactive shells `runRedisShell`,
  `runMongoShell`, `runPostgresShell`, the connection-string helper
  `parseRedisConnection`, and the port-forward target resolution in
  `runPortForward` / `findPodForService`).

Strings are modelled as `List Char` where character-level reasoning is
needed, with `String` wrappers at the interfaces.  The Kubernetes control
plane, the log stream and the terminal are modelled as explicit
environments handed to each operation; the observable effects of a run
(pod creation, pod deletion with its context, exec calls, terminal
restoration) are recorded in an event trace.
-/

/-! ## Go string helpers

Models of the `strings` standard-library functions the sources use:
`strings.TrimPrefix` (`trimPref`), `strings.SplitN (s, sep, 2)`
(`splitFirst`), `strings.Contains` (`containsSub`), `strings.TrimSpace`
(`trimSpace`, over the ASCII whitespace class). -/

/-- Helper for `trimPref`: remove the leading occurrence of the first
list from the second, or return `none` when it is not a leading
occurrence. -/
def dropPref : List Char → List Char → Option (List Char)
  | [], s => some s
  | _ :: _, [] => none
  | p :: ps, c :: cs => if p = c then dropPref ps cs else none

/-- Model of Go `strings.TrimPrefix s pre`: `s` without the leading
occurrence of `pre`, or `s` unchanged when `pre` is not a leading
occurrence. -/
def trimPref (pre s : List Char) : List Char :=
  match dropPref pre s with
  | some r => r
  | none => s

/-- Model of Go `strings.SplitN (s, sep, 2)` for a one-character
separator, fused with the `strings.Contains` guard used by the source:
`some (a, b)` when `s = a ++ sep :: b` with `sep` not in `a`
(the split is at the first occurrence), `none` when `sep` is absent. -/
def splitFirst (sep : Char) : List Char → Option (List Char × List Char)
  | [] => none
  | c :: cs =>
    if c = sep then some ([], cs)
    else
      match splitFirst sep cs with
      | none => none
      | some (a, b) => some (c :: a, b)

/-- Whether the first list is a leading segment of the second. -/
def isPrefixL : List Char → List Char → Bool
  | [], _ => true
  | _ :: _, [] => false
  | p :: ps, c :: cs => p == c && isPrefixL ps cs

/-- Model of Go `strings.Contains hay needle` (needle first argument
here): some suffix of the haystack starts with the needle. -/
def containsSub (needle : List Char) : List Char → Bool
  | [] => isPrefixL needle []
  | c :: cs => isPrefixL needle (c :: cs) || containsSub needle cs

/-- The ASCII whitespace class of Go `unicode.IsSpace` (the sources only
ever trim ASCII output of database command-line clients). -/
def isSpaceGo (c : Char) : Bool :=
  c = ' ' || c = '\t' || c = '\n' || c = '\r' || c = '\x0b' || c = '\x0c'

/-- Remove leading whitespace. -/
def trimLeft : List Char → List Char
  | [] => []
  | c :: cs => if isSpaceGo c then trimLeft cs else c :: cs

/-- Model of Go `strings.TrimSpace`: remove leading and trailing
whitespace. -/
def trimSpace (s : List Char) : List Char :=
  ((trimLeft ((trimLeft s).reverse)).reverse)

/-! ## parseRedisConnection

Model of `parseRedisConnection` in `cmd` (redis command file): default
port 6379, strip a `redis://` scheme, split the credential part at the
first `@` removing one leading `:` from it, then split the remainder at
the first `:` into host and port. -/

/-- The characters of the `redis://` scheme stripped by
`parseRedisConnection`. -/
def redisSchemeChars : List Char := "redis://".data

/-- Model of `parseRedisConnection` (file `cmd`, redis command): returns
`(host, port, password)` exactly as the Go function does. -/
def parseRedisConnection (conn : String) : String × String × String :=
  let c1 := trimPref redisSchemeChars conn.data
  let pw :=
    match splitFirst '@' c1 with
    | some (a, b) => (trimPref [':'] a, b)
    | none => ([], c1)
  match splitFirst ':' pw.2 with
  | some (h, p) => (String.mk h, String.mk p, String.mk pw.1)
  | none => (String.mk pw.2, "6379", String.mk pw.1)

/-! ## Pod data model -/

/-- Pod lifecycle phase (`corev1.PodPhase`). -/
inductive PodPhase where
  | Pending
  | Running
  | Succeeded
  | Failed
  | Unknown
  deriving DecidableEq, Repr

/-- One environment variable of a container (`corev1.EnvVar`). -/
structure EnvVar where
  name : String
  value : String
  deriving DecidableEq, Repr

/-- `k8s.PodConfig`: the configuration the commands hand to
`CreatePod`. -/
structure PodConfig where
  name : String
  ns : String
  image : String
  command : List String
  args : List String
  env : List EnvVar
  tty : Bool
  stdin : Bool
  deriving DecidableEq, Repr

/-- A container of a submitted pod (`corev1.Container`, the fields
`CreatePod` populates). -/
structure Container where
  name : String
  image : String
  command : List String
  args : List String
  env : List EnvVar
  tty : Bool
  stdin : Bool
  deriving DecidableEq, Repr

/-- `corev1.RestartPolicy`. -/
inductive RestartPolicy where
  | Always
  | OnFailure
  | Never
  deriving DecidableEq, Repr

/-- The pod manifest `CreatePod` submits to the control plane:
metadata (name, namespace, labels) and spec (restart policy,
containers). -/
structure PodManifest where
  name : String
  ns : String
  labels : List (String × String)
  restartPolicy : RestartPolicy
  containers : List Container
  deriving DecidableEq, Repr

/-- Model of `Client.CreatePod` in `pkg/k8s`: the manifest built from a
`PodConfig` before submission — ownership labels, restart policy
`Never`, and a single container named `main`. -/
def CreatePod (config : PodConfig) : PodManifest :=
  { name := config.name
    ns := config.ns
    labels := [("app.kubernetes.io/managed-by", "kubectl-pocket"),
               ("kubectl-pocket/temporary", "true")]
    restartPolicy := RestartPolicy.Never
    containers := [{ name := "main"
                     image := config.image
                     command := config.command
                     args := config.args
                     env := config.env
                     tty := config.tty
                     stdin := config.stdin }] }

/-! ## Status polling

`WaitForPodRunning` and `WaitForPodCompletion` both wrap
`wait.PollUntilContextTimeout(ctx, time.Second, timeout, true, cond)`:
with `immediate = true` the condition runs once before any sleep; the
loop then alternates a one-interval sleep with a condition check until
the condition returns `(true, nil)`, the condition returns a non-nil
error (which aborts the loop at once), or the deadline derived from
`timeout` expires.  Time is discretised in poll intervals: `timeout` is
the number of sleeps the budget allows, and the status read environment
is a function from the poll index to the result of the Kubernetes `Get`
call at that poll. -/

/-- The pod object as observed by a status read (`Get`); the sources
only consume `pod.Status.Phase`. -/
structure PodObs where
  phase : PodPhase
  deriving DecidableEq, Repr

/-- Result of one invocation of a poll condition function
(`(bool, error)` in Go): satisfied, not yet satisfied, or a non-nil
error. -/
inductive CondResult where
  | done
  | notYet
  | err (msg : String)
  deriving DecidableEq, Repr

/-- Observable events of one polling loop: a condition check at a poll
index, and a sleep of one poll interval. -/
inductive PollEv where
  | check (i : Nat)
  | sleep
  deriving DecidableEq, Repr

/-- Outcome of a polling loop: condition satisfied at a poll index,
condition error at a poll index (the loop aborts there), or deadline
expiry. -/
inductive PollOutcome where
  | ok (atPoll : Nat)
  | condErr (atPoll : Nat) (msg : String)
  | timedOut
  deriving DecidableEq, Repr

/-- The polling loop of `wait.PollUntilContextTimeout` with
`immediate = true`, instrumented with its event trace: check the
condition at index `i`; on `done` or `err` stop; otherwise sleep one
interval and continue while the sleep budget `fuel` lasts. -/
def pollTrace (cond : Nat → CondResult) : Nat → Nat → List PollEv × PollOutcome
  | i, 0 =>
    match cond i with
    | CondResult.done => ([PollEv.check i], PollOutcome.ok i)
    | CondResult.err e => ([PollEv.check i], PollOutcome.condErr i e)
    | CondResult.notYet => ([PollEv.check i], PollOutcome.timedOut)
  | i, f + 1 =>
    match cond i with
    | CondResult.done => ([PollEv.check i], PollOutcome.ok i)
    | CondResult.err e => ([PollEv.check i], PollOutcome.condErr i e)
    | CondResult.notYet =>
      let r := pollTrace cond (i + 1) f
      (PollEv.check i :: PollEv.sleep :: r.1, r.2)

/-- The condition closure of `WaitForPodRunning`: propagate a status
read error, otherwise test `pod.Status.Phase == corev1.PodRunning`. -/
def runningCond (get : Nat → Except String PodObs) (i : Nat) : CondResult :=
  match get i with
  | Except.error e => CondResult.err e
  | Except.ok pod =>
    if pod.phase = PodPhase.Running then CondResult.done else CondResult.notYet

/-- Model of `Client.WaitForPodRunning` in `pkg/k8s`, with its poll
event trace. -/
def WaitForPodRunning (get : Nat → Except String PodObs) (timeout : Nat) :
    List PollEv × PollOutcome :=
  pollTrace (runningCond get) 0 timeout

/-- Outcome of `WaitForPodCompletion` as its callers observe it: the Go
function returns `(resultPod, err)` and every caller uses `resultPod`
only when `err` is nil, in which case it is the pod of the final,
condition-satisfying read. -/
inductive WaitResult where
  | completed (pod : PodObs) (atPoll : Nat)
  | readErr (atPoll : Nat) (msg : String)
  | timedOut (lastSeen : PodObs)
  deriving DecidableEq, Repr

/-- Recursion of `WaitForPodCompletion`: read the status at poll `i`;
a read error aborts the loop; a terminal phase (`Succeeded` or
`Failed`) completes it; otherwise sleep and continue while the budget
lasts. -/
def waitCompletionGo (get : Nat → Except String PodObs) : Nat → Nat → WaitResult
  | i, 0 =>
    match get i with
    | Except.error e => WaitResult.readErr i e
    | Except.ok pod =>
      if pod.phase = PodPhase.Succeeded ∨ pod.phase = PodPhase.Failed then
        WaitResult.completed pod i
      else WaitResult.timedOut pod
  | i, f + 1 =>
    match get i with
    | Except.error e => WaitResult.readErr i e
    | Except.ok pod =>
      if pod.phase = PodPhase.Succeeded ∨ pod.phase = PodPhase.Failed then
        WaitResult.completed pod i
      else waitCompletionGo get (i + 1) f

/-- Model of `Client.WaitForPodCompletion` in `pkg/k8s`. -/
def WaitForPodCompletion (get : Nat → Except String PodObs) (timeout : Nat) :
    WaitResult :=
  waitCompletionGo get 0 timeout

/-! ## Log retrieval -/

/-- The log stream environment of `GetPodLogs`: opening the stream can
fail, reading it can fail, or it yields its chunks. -/
inductive LogStream where
  | openErr (msg : String)
  | readErr (msg : String)
  | ok (chunks : List (List Char))
  deriving DecidableEq, Repr

/-- Model of `Client.GetPodLogs` in `pkg/k8s`: propagate a stream-open
or read error; otherwise `io.ReadAll` concatenates every chunk in
order and the accumulated bytes are returned as a string unchanged. -/
def GetPodLogs : LogStream → Except String (List Char)
  | LogStream.openErr e => Except.error e
  | LogStream.readErr e => Except.error e
  | LogStream.ok chunks => Except.ok chunks.flatten

/-! ## Contexts, events and operation environments -/

/-- A Go `context.Context` as built by the sources: the background
context, a timeout-bounded child (seconds), or a cancellable child. -/
inductive Ctx where
  | background
  | withTimeout (parent : Ctx) (seconds : Nat)
  | withCancel (parent : Ctx)
  deriving DecidableEq, Repr

/-- The cleanup context every deferred deletion builds:
`context.WithTimeout(context.Background(), 10*time.Second)`. -/
def cleanupCtx : Ctx := Ctx.withTimeout Ctx.background 10

/-- `k8s.ExecOptions` (the fields the shell commands populate; the
stream bindings are the process stdio in every call). -/
structure ExecOptions where
  ns : String
  podName : String
  container : String
  command : List String
  tty : Bool
  deriving DecidableEq, Repr

/-- Observable control-plane and terminal events of one command run. -/
inductive Ev where
  | createPod (cfg : PodConfig)
  | deletePod (ctx : Ctx) (podName : String) (ok : Bool)
  | execCall (opts : ExecOptions)
  | termRestore
  deriving DecidableEq, Repr

/-- Environment of one test-mode probe run: the result of building the
Kubernetes client, the result of `CreatePod`, the per-poll status
reads, the log stream, and whether the deferred `DeletePod`
succeeds. -/
structure ProbeEnv where
  clientRes : Except String Unit
  createRes : Except String Unit
  get : Nat → Except String PodObs
  logs : LogStream
  deleteOk : Bool

/-- Environment of one interactive shell run: the result of
`CreatePod`, the per-poll status reads, the result of
`term.MakeRaw`, the result of `Exec`, and whether the deferred
`DeletePod` succeeds. -/
structure ShellEnv where
  createRes : Except String Unit
  get : Nat → Except String PodObs
  makeRawRes : Except String Unit
  execRes : Except String Unit
  deleteOk : Bool

/-! ## Probe commands (test mode)

Models of `runRedisTest`, `runMongoTest` and `runPostgresTest` (test
mode).  Each returns the `error` value the Go function returns
(`Except.ok ()` for a nil error, so process exit code 0) together with
the event trace of the run.  The deferred cleanup closure registered
right after a successful `CreatePod` runs on every later exit path; its
deletion event therefore ends the trace of each of those paths, always
under the fresh 10-second background-derived context, and its error is
discarded with `_ =`. -/

/-- The `redis-cli` argument list `runRedisTest` builds: password flag
only when a password was parsed. -/
def redisTestArgs (host port password : String) : List String :=
  if password ≠ "" then ["-h", host, "-p", port, "-a", password, "PING"]
  else ["-h", host, "-p", port, "PING"]

/-- The `PodConfig` of the redis test pod. -/
def redisTestPodConfig (podName ns host port password : String) : PodConfig :=
  { name := podName
    ns := ns
    image := "redis:7-alpine"
    command := ["redis-cli"]
    args := redisTestArgs host port password
    env := []
    tty := false
    stdin := false }

/-- The success marker the redis test greps for in the pod logs. -/
def pongMarker : List Char := "PONG".data

/-- Model of `runRedisTest` (test mode): create the test pod, register
the deferred deletion, wait for completion, fetch the logs, trim them,
and succeed only when the terminal phase is `Succeeded` and the trimmed
logs contain `PONG`. -/
def runRedisTest (env : ProbeEnv) (redisTimeout : Nat)
    (ns podName conn : String) : Except String Unit × List Ev :=
  match env.clientRes with
  | Except.error e => (Except.error ("failed to create k8s client: " ++ e), [])
  | Except.ok _ =>
    let hp := parseRedisConnection conn
    let cfg := redisTestPodConfig podName ns hp.1 hp.2.1 hp.2.2
    match env.createRes with
    | Except.error e => (Except.error ("failed to create pod: " ++ e), [])
    | Except.ok _ =>
      let created := [Ev.createPod cfg]
      let cleanup := [Ev.deletePod cleanupCtx podName env.deleteOk]
      match WaitForPodCompletion env.get redisTimeout with
      | WaitResult.readErr _ e =>
        (Except.error ("timeout waiting for test: " ++ e), created ++ cleanup)
      | WaitResult.timedOut _ =>
        (Except.error "timeout waiting for test: context deadline exceeded",
         created ++ cleanup)
      | WaitResult.completed pod _ =>
        match GetPodLogs env.logs with
        | Except.error e =>
          (Except.error ("failed to get logs: " ++ e), created ++ cleanup)
        | Except.ok rawLogs =>
          let logs := trimSpace rawLogs
          if pod.phase = PodPhase.Succeeded ∧ containsSub pongMarker logs then
            (Except.ok (), created ++ cleanup)
          else
            (Except.error "connection test failed", created ++ cleanup)

/-- The `PodConfig` of the mongo test pod (the `mongosh` eval string is
`db.runCommand(\x7bping: 1\x7d)` with literal braces). -/
def mongoTestPodConfig (podName ns connStr : String) : PodConfig :=
  { name := podName
    ns := ns
    image := "mongo:7"
    command := ["mongosh"]
    args := [connStr, "--eval", "db.runCommand(\x7bping: 1\x7d)", "--quiet"]
    env := []
    tty := false
    stdin := false }

/-- Model of `runMongoTest` (test mode): like the redis test, but the
success check is `pod.Status.Phase == "Succeeded"` alone — the fetched
logs are only printed, never matched. -/
def runMongoTest (env : ProbeEnv) (mongoTimeout : Nat)
    (ns podName connStr : String) : Except String Unit × List Ev :=
  match env.clientRes with
  | Except.error e => (Except.error ("failed to create k8s client: " ++ e), [])
  | Except.ok _ =>
    let cfg := mongoTestPodConfig podName ns connStr
    match env.createRes with
    | Except.error e => (Except.error ("failed to create pod: " ++ e), [])
    | Except.ok _ =>
      let created := [Ev.createPod cfg]
      let cleanup := [Ev.deletePod cleanupCtx podName env.deleteOk]
      match WaitForPodCompletion env.get mongoTimeout with
      | WaitResult.readErr _ e =>
        (Except.error ("timeout waiting for test: " ++ e), created ++ cleanup)
      | WaitResult.timedOut _ =>
        (Except.error "timeout waiting for test: context deadline exceeded",
         created ++ cleanup)
      | WaitResult.completed pod _ =>
        match GetPodLogs env.logs with
        | Except.error e =>
          (Except.error ("failed to get logs: " ++ e), created ++ cleanup)
        | Except.ok _ =>
          if pod.phase = PodPhase.Succeeded then
            (Except.ok (), created ++ cleanup)
          else
            (Except.error "connection test failed", created ++ cleanup)

/-- The `PodConfig` of the postgres test pod. -/
def postgresTestPodConfig (podName ns connStr : String) : PodConfig :=
  { name := podName
    ns := ns
    image := "postgres:14-alpine"
    command := ["psql"]
    args := [connStr, "-c", "SELECT 1 as connection_test;"]
    env := []
    tty := false
    stdin := false }

/-- Model of `runPostgresTest` (test mode): like the mongo test, the
success check is `pod.Status.Phase == "Succeeded"` alone. -/
def runPostgresTest (env : ProbeEnv) (postgresTimeout : Nat)
    (ns podName connStr : String) : Except String Unit × List Ev :=
  match env.clientRes with
  | Except.error e => (Except.error ("failed to create k8s client: " ++ e), [])
  | Except.ok _ =>
    let cfg := postgresTestPodConfig podName ns connStr
    match env.createRes with
    | Except.error e => (Except.error ("failed to create pod: " ++ e), [])
    | Except.ok _ =>
      let created := [Ev.createPod cfg]
      let cleanup := [Ev.deletePod cleanupCtx podName env.deleteOk]
      match WaitForPodCompletion env.get postgresTimeout with
      | WaitResult.readErr _ e =>
        (Except.error ("timeout waiting for test: " ++ e), created ++ cleanup)
      | WaitResult.timedOut _ =>
        (Except.error "timeout waiting for test: context deadline exceeded",
         created ++ cleanup)
      | WaitResult.completed pod _ =>
        match GetPodLogs env.logs with
        | Except.error e =>
          (Except.error ("failed to get logs: " ++ e), created ++ cleanup)
        | Except.ok _ =>
          if pod.phase = PodPhase.Succeeded then
            (Except.ok (), created ++ cleanup)
          else
            (Except.error "connection test failed", created ++ cleanup)

/-! ## Interactive shells

Models of `runRedisShell`, `runMongoShell` and `runPostgresShell`: the
shells create a `sleep 3600` pod with TTY and stdin, register the same
deferred deletion, wait for phase `Running` (2 minute budget, 120 poll
intervals), put the terminal into raw mode with a deferred restore, and
block in `Exec` with container `main`.  Go defers run last-in
first-out, so the terminal restore event precedes the deletion event on
the exec path. -/

/-- The `PodConfig` of an interactive shell pod for the given image. -/
def shellPodConfig (podName ns image : String) : PodConfig :=
  { name := podName
    ns := ns
    image := image
    command := ["sleep", "3600"]
    args := []
    env := []
    tty := true
    stdin := true }

/-- The `redis-cli` command line of the redis shell exec. -/
def redisCliCommand (host port password : String) : List String :=
  let base := ["redis-cli", "-h", host, "-p", port]
  if password ≠ "" then base ++ ["-a", password] else base

/-- The `ExecOptions` of the redis shell. -/
def redisShellExecOpts (ns podName host port password : String) : ExecOptions :=
  { ns := ns
    podName := podName
    container := "main"
    command := redisCliCommand host port password
    tty := true }

/-- The `ExecOptions` of the mongo shell. -/
def mongoShellExecOpts (ns podName connStr : String) : ExecOptions :=
  { ns := ns
    podName := podName
    container := "main"
    command := ["mongosh", connStr]
    tty := true }

/-- The `ExecOptions` of the postgres shell. -/
def postgresShellExecOpts (ns podName connStr : String) : ExecOptions :=
  { ns := ns
    podName := podName
    container := "main"
    command := ["psql", connStr]
    tty := true }

/-- Shared shape of the three shell functions, parameterised by the pod
image and the exec options: create, defer deletion, wait for Running,
raw terminal with deferred restore, exec.  External cancellation
surfaces as an error of the wait or of the exec. -/
def runShellWith (env : ShellEnv) (ns podName image : String)
    (opts : ExecOptions) : Except String Unit × List Ev :=
  match env.createRes with
  | Except.error e => (Except.error ("failed to create pod: " ++ e), [])
  | Except.ok _ =>
    let created := [Ev.createPod (shellPodConfig podName ns image)]
    let cleanup := [Ev.deletePod cleanupCtx podName env.deleteOk]
    match (WaitForPodRunning env.get 120).2 with
    | PollOutcome.condErr _ e =>
      (Except.error ("pod failed to start: " ++ e), created ++ cleanup)
    | PollOutcome.timedOut =>
      (Except.error "pod failed to start: context deadline exceeded",
       created ++ cleanup)
    | PollOutcome.ok _ =>
      match env.makeRawRes with
      | Except.error e =>
        (Except.error ("failed to set raw terminal: " ++ e), created ++ cleanup)
      | Except.ok _ =>
        (env.execRes,
         created ++ [Ev.execCall opts, Ev.termRestore] ++ cleanup)

/-- Model of `runRedisShell`. -/
def runRedisShell (env : ShellEnv) (ns podName host port password : String) :
    Except String Unit × List Ev :=
  runShellWith env ns podName "redis:7-alpine"
    (redisShellExecOpts ns podName host port password)

/-- Model of `runMongoShell`. -/
def runMongoShell (env : ShellEnv) (ns podName connStr : String) :
    Except String Unit × List Ev :=
  runShellWith env ns podName "mongo:7" (mongoShellExecOpts ns podName connStr)

/-- Model of `runPostgresShell`. -/
def runPostgresShell (env : ShellEnv) (ns podName connStr : String) :
    Except String Unit × List Ev :=
  runShellWith env ns podName "postgres:14-alpine"
    (postgresShellExecOpts ns podName connStr)

/-! ## Port-forward target resolution

Model of the service/pod resolution in `runPortForward` and
`findPodForService`, over a static view of one namespace of the
cluster: the list of services (name and label selector) and the list
of pods (name and labels), in the order the control plane lists
them. -/

/-- A Kubernetes service as the resolution consumes it. -/
structure SvcObj where
  name : String
  selector : List (String × String)
  deriving DecidableEq, Repr

/-- A Kubernetes pod as the resolution consumes it. -/
structure ClusterPod where
  name : String
  labels : List (String × String)
  deriving DecidableEq, Repr

/-- One namespace of the cluster as seen by the resolution. -/
structure ClusterNs where
  services : List SvcObj
  pods : List ClusterPod
  deriving DecidableEq, Repr

/-- The `Get` of a service by name: the service of that name, when
present. -/
def svcByName (w : ClusterNs) (n : String) : Option SvcObj :=
  w.services.find? (fun s => s.name == n)

/-- The alias table `dbAliases` of `cmd/portforward.go`: candidate
service names and default port per supported database. -/
def dbAliases (dbType : String) : Option (List String × Nat) :=
  if dbType = "redis" then some (["redis", "redis-master", "redis-svc"], 6379)
  else if dbType = "mongo" then some (["mongo", "mongodb", "mongo-svc"], 27017)
  else if dbType = "postgres" then
    some (["postgres", "postgresql", "pg", "pg-svc"], 5432)
  else none

/-- The candidate loop of `runPortForward`: the first candidate name
whose service `Get` succeeds. -/
def resolveService (w : ClusterNs) (cands : List String) : Option String :=
  cands.find? (fun n => (svcByName w n).isSome)

/-- Whether a pod label set satisfies a selector: the joined
`k=v,...` label-selector expression holds exactly when every selector
pair occurs among the pod labels. -/
def matchesSelector (labels sel : List (String × String)) : Bool :=
  sel.all (fun kv => labels.contains kv)

/-- Model of `findPodForService`: `Get` the service, fail when it has
an empty selector, list the pods matching the selector (`Limit: 1`)
and return the first one, failing when there is none. -/
def findPodForService (w : ClusterNs) (serviceName : String) :
    Except String String :=
  match svcByName w serviceName with
  | none => Except.error "service not found"
  | some svc =>
    if svc.selector = [] then Except.error "service has no selector"
    else
      match w.pods.find? (fun p => matchesSelector p.labels svc.selector) with
      | none => Except.error "no pods found for service"
      | some p => Except.ok p.name

/-- The resolution of `runPortForward` after the alias lookup: first
candidate service that exists, then its backing pod. -/
def resolveTargetNames (w : ClusterNs) (cands : List String) :
    Except String String :=
  match resolveService w cands with
  | none => Except.error "no service found"
  | some n => findPodForService w n

/-- The full target resolution of `runPortForward`: alias table lookup,
candidate loop, backing pod. -/
def resolveTarget (w : ClusterNs) (dbType : String) : Except String String :=
  match dbAliases dbType with
  | none => Except.error "unsupported database"
  | some a => resolveTargetNames w a.1

/-! ## Trace inspection -/

/-- Number of `DeletePod` invocations recorded in a trace. -/
def deleteCount (evs : List Ev) : Nat :=
  (evs.filter fun e =>
    match e with
    | Ev.deletePod _ _ _ => true
    | _ => false).length

/-- Whether every `DeletePod` invocation of a trace uses the fresh
10-second background-derived cleanup context. -/
def deletesUseFreshCtx (evs : List Ev) : Bool :=
  evs.all fun e =>
    match e with
    | Ev.deletePod c _ _ => c == Ctx.withTimeout Ctx.background 10
    | _ => true

/-! ## Concrete sample environments

Small closed instances of the environments, used to instantiate the
theorems below at concrete inputs. -/

/-- Status reads where the first read fails and every later read sees
a Running pod. -/
def c2CexGet : Nat → Except String PodObs := fun i =>
  if i = 0 then Except.error "transient read failure"
  else Except.ok ⟨PodPhase.Running⟩

/-- Status reads where the first read sees a Pending pod and the
second read fails. -/
def c2WitGet : Nat → Except String PodObs := fun i =>
  if i = 0 then Except.ok ⟨PodPhase.Pending⟩ else Except.error "boom"

/-- Status reads that always see a Running pod. -/
def c7RunGet : Nat → Except String PodObs := fun _ =>
  Except.ok ⟨PodPhase.Running⟩

/-- Status reads that always see a Succeeded pod. -/
def c7DoneGet : Nat → Except String PodObs := fun _ =>
  Except.ok ⟨PodPhase.Succeeded⟩

/-- A probe environment where everything works, the pod ends in phase
`Succeeded`, and its log output is `ERROR: auth failed`. -/
def c1CexEnv : ProbeEnv :=
  ⟨Except.ok (), Except.ok (), c7DoneGet,
   LogStream.ok ["ERROR: auth failed".data], true⟩

/-- A probe environment where everything works, the pod ends in phase
`Succeeded`, and its log output is `PONG` with a trailing newline. -/
def c1WitEnv : ProbeEnv :=
  ⟨Except.ok (), Except.ok (), c7DoneGet,
   LogStream.ok ["PONG\n".data], true⟩

/-- A probe environment whose run times out at every poll while the
deferred deletion fails: exercises an error exit path. -/
def c3ProbeEnv : ProbeEnv :=
  ⟨Except.ok (), Except.ok (),
   (fun _ => Except.ok ⟨PodPhase.Pending⟩),
   LogStream.ok [], false⟩

/-- A shell environment where the pod starts, the terminal enters raw
mode and the exec session ends normally. -/
def c3ShellEnv : ShellEnv :=
  ⟨Except.ok (), c7RunGet, Except.ok (), Except.ok (), true⟩

/-- A one-service, one-pod namespace: only `redis-svc` exists, selected
pods carry the label `app=redis`. -/
def c5World : ClusterNs :=
  ⟨[⟨"redis-svc", [("app", "redis")]⟩],
   [⟨"redis-pod-0", [("app", "redis")]⟩]⟩

/-! ## Theorems -/

/-- Splitting lemma: `splitFirst` finds the first occurrence of the
separator. -/
theorem splitFirst_append (sep : Char) (b : List Char) :
    ∀ a : List Char, sep ∉ a → splitFirst sep (a ++ sep :: b) = some (a, b) := by
  intro a
  induction a with
  | nil => intro _; simp [splitFirst]
  | cons c cs ih =>
    intro h
    have hc : ¬ c = sep := by
      intro hh
      exact h (hh ▸ List.mem_cons_self c cs)
    have ihh := ih (fun hm => h (List.mem_cons_of_mem c hm))
    simp [splitFirst, hc, ihh]

/-- Splitting lemma: `splitFirst` returns `none` exactly on lists
without the separator. -/
theorem splitFirst_none (sep : Char) :
    ∀ l : List Char, sep ∉ l → splitFirst sep l = none := by
  intro l
  induction l with
  | nil => intro _; rfl
  | cons c cs ih =>
    intro h
    have hc : ¬ c = sep := by
      intro hh
      exact h (hh ▸ List.mem_cons_self c cs)
    have ihh := ih (fun hm => h (List.mem_cons_of_mem c hm))
    simp [splitFirst, hc, ihh]

/-- C6: `parseRedisConnection` maps `"redis-svc:6379"` to
host `redis-svc`, port `6379`, empty password, and maps
`"redis://:secret@redis-svc"` to host `redis-svc`, default port
`6379`, password `secret`. -/
theorem c6_parse_examples :
    parseRedisConnection "redis-svc:6379" = ("redis-svc", "6379", "") ∧
    parseRedisConnection "redis://:secret@redis-svc" =
      ("redis-svc", "6379", "secret") :=
  ⟨by decide, by decide⟩

/-- C9: `parseRedisConnection` is a total function and splits at the
first `@` only: whenever the input, after removal of a `redis://`
scheme, is `u ++ '@' :: v` with no `@` in `u`, the password is `u`
with at most one leading `:` removed (so `user:pass@host` yields
password `user:pass`); `v` is then split at its first `:` into host
and port with the port taken verbatim, and when `v` has no `:` the
port defaults to `6379`. -/
theorem c9_split_at_first_at (s : String) (u v : List Char)
    (h : trimPref redisSchemeChars s.data = u ++ '@' :: v)
    (hu : '@' ∉ u) :
    (parseRedisConnection s).2.2 = String.mk (trimPref [':'] u) ∧
    (∀ h1 p1, v = h1 ++ ':' :: p1 → ':' ∉ h1 →
      parseRedisConnection s =
        (String.mk h1, String.mk p1, String.mk (trimPref [':'] u))) ∧
    (':' ∉ v →
      parseRedisConnection s =
        (String.mk v, "6379", String.mk (trimPref [':'] u))) := by
  have hs : splitFirst '@' (trimPref redisSchemeChars s.data) = some (u, v) := by
    rw [h]; exact splitFirst_append '@' v u hu
  refine ⟨?_, ?_, ?_⟩
  · simp only [parseRedisConnection]
    rw [hs]
    cases hv : splitFirst ':' v with
    | none => simp
    | some p => cases p with | mk h1 p1 => simp
  · intro h1 p1 hveq hh1
    simp only [parseRedisConnection]
    rw [hs]
    simp only []
    rw [hveq, splitFirst_append ':' p1 h1 hh1]
  · intro hv
    simp only [parseRedisConnection]
    rw [hs]
    simp only []
    rw [splitFirst_none ':' v hv]

/-- Witness for C9 at the input `user:pass@host`: the password keeps
its inner colon (the split is at the first `@`, not the first `:` of
the credential) and the hostless-port default applies. -/
theorem c9_witness :
    parseRedisConnection "user:pass@host" = ("host", "6379", "user:pass") := by
  have h := (c9_split_at_first_at "user:pass@host" "user:pass".data "host".data
    (by decide) (by decide)).2.2 (by decide)
  exact h

/-- C8 counterexample: a stream that opens successfully and whose
accumulated output ends in a newline is returned by `GetPodLogs` with
that trailing whitespace intact — the returned string is not
whitespace-trimmed as the claim states. -/
theorem c8_counterexample :
    GetPodLogs (LogStream.ok ["PONG\n".data]) = Except.ok "PONG\n".data ∧
    trimSpace "PONG\n".data ≠ "PONG\n".data :=
  ⟨rfl, by decide⟩

/-- C8 (amended): `GetPodLogs` reads the stream to completion and
returns the concatenation of all chunks verbatim — in particular it
differs from the trimmed text whenever the output carries surrounding
whitespace — and it propagates stream-open and read errors. -/
theorem c8_logs_verbatim (chunks : List (List Char)) (e : String) :
    GetPodLogs (LogStream.ok chunks) = Except.ok chunks.flatten ∧
    (trimSpace chunks.flatten ≠ chunks.flatten →
      GetPodLogs (LogStream.ok chunks) ≠ Except.ok (trimSpace chunks.flatten)) ∧
    GetPodLogs (LogStream.openErr e) = Except.error e ∧
    GetPodLogs (LogStream.readErr e) = Except.error e := by
  refine ⟨rfl, ?_, rfl, rfl⟩
  intro hne hcontra
  simp only [GetPodLogs] at hcontra
  injection hcontra with hh
  exact hne hh.symm

/-- Witness for C8 at a one-chunk stream ending in a newline. -/
theorem c8_witness :
    GetPodLogs (LogStream.ok ["PONG\n".data]) ≠
      Except.ok (trimSpace (["PONG\n".data].flatten)) :=
  (c8_logs_verbatim ["PONG\n".data] "e").2.1 (by decide)

/-- C10: every pod manifest built by `CreatePod` has restart policy
`Never` and exactly one container, named `main`; the container name
`main` used by every shell `Exec` call is hence the name of an
existing container of every pod the tool creates. -/
theorem c10_created_pod_shape (config : PodConfig)
    (ns podName host port password connStr : String) :
    (CreatePod config).restartPolicy = RestartPolicy.Never ∧
    (CreatePod config).containers.map Container.name = ["main"] ∧
    (redisShellExecOpts ns podName host port password).container = "main" ∧
    (mongoShellExecOpts ns podName connStr).container = "main" ∧
    (postgresShellExecOpts ns podName connStr).container = "main" ∧
    "main" ∈ (CreatePod config).containers.map Container.name := by
  refine ⟨rfl, rfl, rfl, rfl, rfl, ?_⟩
  simp [CreatePod]

/-- Polling lemma: the first event of every polling loop is the check
at the start index — the first poll fires before any sleep. -/
theorem pollTrace_head (cond : Nat → CondResult) (i fuel : Nat) :
    (pollTrace cond i fuel).1.head? = some (PollEv.check i) := by
  cases fuel <;> cases h : cond i <;> simp [pollTrace, h]

/-- Polling lemma: when the first `k` checks are unsatisfied and check
`k` errors within the sleep budget, the loop stops at check `k` with
that error. -/
theorem pollTrace_err_abort (cond : Nat → CondResult) (e : String) :
    ∀ k i fuel, k ≤ fuel →
      (∀ j, j < k → cond (i + j) = CondResult.notYet) →
      cond (i + k) = CondResult.err e →
      (pollTrace cond i fuel).2 = PollOutcome.condErr (i + k) e := by
  intro k
  induction k with
  | zero =>
    intro i fuel _ _ hk
    have hk0 : cond i = CondResult.err e := by simpa using hk
    cases fuel <;> simp [pollTrace, hk0]
  | succ k ih =>
    intro i fuel hle hpre hk
    obtain ⟨f, rfl⟩ : ∃ f, fuel = f + 1 := ⟨fuel - 1, by omega⟩
    have h0 : cond i = CondResult.notYet := by simpa using hpre 0 (Nat.succ_pos k)
    have harith : ∀ j : Nat, i + 1 + j = i + (j + 1) := by intro j; omega
    have hpre2 : ∀ j, j < k → cond (i + 1 + j) = CondResult.notYet := by
      intro j hj
      rw [harith j]
      exact hpre (j + 1) (by omega)
    have hk2 : cond (i + 1 + k) = CondResult.err e := by
      rw [harith k]; exact hk
    have hres := ih (i + 1) f (by omega) hpre2 hk2
    simp [pollTrace, h0]
    rw [hres, harith k]

/-- Polling lemma, `WaitForPodCompletion` shape: when the first `k`
status reads see non-terminal pods and read `k` fails within the
budget, the loop stops at read `k` with that error. -/
theorem waitCompletion_err_abort (get : Nat → Except String PodObs) (e : String) :
    ∀ k i fuel, k ≤ fuel →
      (∀ j, j < k → ∃ p, get (i + j) = Except.ok p ∧
        ¬(p.phase = PodPhase.Succeeded ∨ p.phase = PodPhase.Failed)) →
      get (i + k) = Except.error e →
      waitCompletionGo get i fuel = WaitResult.readErr (i + k) e := by
  intro k
  induction k with
  | zero =>
    intro i fuel _ _ hk
    have hk0 : get i = Except.error e := by simpa using hk
    cases fuel <;> simp [waitCompletionGo, hk0]
  | succ k ih =>
    intro i fuel hle hpre hk
    obtain ⟨f, rfl⟩ : ∃ f, fuel = f + 1 := ⟨fuel - 1, by omega⟩
    obtain ⟨p, hp, hph⟩ := by simpa using hpre 0 (Nat.succ_pos k)
    have harith : ∀ j : Nat, i + 1 + j = i + (j + 1) := by intro j; omega
    have hpre2 : ∀ j, j < k → ∃ q, get (i + 1 + j) = Except.ok q ∧
        ¬(q.phase = PodPhase.Succeeded ∨ q.phase = PodPhase.Failed) := by
      intro j hj
      rw [harith j]
      exact hpre (j + 1) (by omega)
    have hk2 : get (i + 1 + k) = Except.error e := by
      rw [harith k]; exact hk
    have hres := ih (i + 1) f (by omega) hpre2 hk2
    simp [waitCompletionGo, hp, hph]
    rw [hres, harith k]

/-- C2 counterexample: a status read that fails on the very first poll
aborts `WaitForPodRunning` immediately — the error is surfaced with
the timeout budget (30 polls) untouched and without the retry the
claim describes, even though the next read would already have seen a
Running pod. -/
theorem c2_counterexample :
    WaitForPodRunning c2CexGet 30 =
      ([PollEv.check 0], PollOutcome.condErr 0 "transient read failure") ∧
    c2CexGet 1 = Except.ok ⟨PodPhase.Running⟩ :=
  ⟨rfl, rfl⟩

/-- C2 (amended): any error returned by a status read aborts the poll
at once, in `WaitForPodRunning` and in `WaitForPodCompletion`: if the
reads before poll `i` keep the loop going and the read at poll `i`
fails, the loop returns that error at poll `i`, regardless of the
remaining timeout budget. -/
theorem c2_read_error_aborts (get : Nat → Except String PodObs)
    (t i : Nat) (e : String) :
    (i ≤ t → (∀ j, j < i → runningCond get j = CondResult.notYet) →
      get i = Except.error e →
      (WaitForPodRunning get t).2 = PollOutcome.condErr i e) ∧
    (i ≤ t →
      (∀ j, j < i → ∃ p, get j = Except.ok p ∧
        ¬(p.phase = PodPhase.Succeeded ∨ p.phase = PodPhase.Failed)) →
      get i = Except.error e →
      WaitForPodCompletion get t = WaitResult.readErr i e) := by
  constructor
  · intro hle hpre herr
    have hcond : runningCond get (0 + i) = CondResult.err e := by
      simp [runningCond, herr]
    have := pollTrace_err_abort (runningCond get) e i 0 t hle
      (fun j hj => by simpa using hpre j hj) hcond
    simpa [WaitForPodRunning] using this
  · intro hle hpre herr
    have := waitCompletion_err_abort get e i 0 t hle
      (fun j hj => by simpa using hpre j hj) (by simpa using herr)
    simpa [WaitForPodCompletion] using this

/-- Witness for C2: a run whose first read sees a Pending pod and
whose second read fails returns the read error at poll 1 of a
30-poll budget. -/
theorem c2_witness :
    (WaitForPodRunning c2WitGet 30).2 = PollOutcome.condErr 1 "boom" := by
  refine (c2_read_error_aborts c2WitGet 30 1 "boom").1 (by omega) ?_ rfl
  intro j hj
  have hj0 : j = 0 := by omega
  subst hj0
  decide

/-- C7: every polling run checks the status immediately — the first
trace event is the check at poll 0 — and a predicate already true at
that first check makes `WaitForPodRunning` return with a one-event
trace (no sleep at all) and makes `WaitForPodCompletion` complete at
poll 0. -/
theorem c7_first_poll_immediate (get : Nat → Except String PodObs)
    (t : Nat) (pod : PodObs) :
    (WaitForPodRunning get t).1.head? = some (PollEv.check 0) ∧
    (runningCond get 0 = CondResult.done →
      WaitForPodRunning get t = ([PollEv.check 0], PollOutcome.ok 0)) ∧
    (get 0 = Except.ok pod →
      pod.phase = PodPhase.Succeeded ∨ pod.phase = PodPhase.Failed →
      WaitForPodCompletion get t = WaitResult.completed pod 0) := by
  refine ⟨pollTrace_head (runningCond get) 0 t, ?_, ?_⟩
  · intro h
    cases t <;> simp [WaitForPodRunning, pollTrace, h]
  · intro hg hph
    cases t <;> simp [WaitForPodCompletion, waitCompletionGo, hg, hph]

/-- Witness for C7: with a pod already Running (respectively already
Succeeded) at the first check, both waits return at poll 0; the
running wait performs no sleep. -/
theorem c7_witness :
    WaitForPodRunning c7RunGet 30 = ([PollEv.check 0], PollOutcome.ok 0) ∧
    WaitForPodCompletion c7DoneGet 30 =
      WaitResult.completed ⟨PodPhase.Succeeded⟩ 0 :=
  ⟨(c7_first_poll_immediate c7RunGet 30 ⟨PodPhase.Running⟩).2.1 (by decide),
   (c7_first_poll_immediate c7DoneGet 30 ⟨PodPhase.Succeeded⟩).2.2 rfl
     (Or.inl rfl)⟩

/-- C1 counterexample: a postgres test run whose pod completes in phase
`Succeeded` with log output `ERROR: auth failed` returns a nil error
(exit code 0) — the claim requires a failure for every run whose
output lacks the expected marker, but the postgres test never inspects
the output. -/
theorem c1_counterexample :
    WaitForPodCompletion c1CexEnv.get 5 =
      WaitResult.completed ⟨PodPhase.Succeeded⟩ 0 ∧
    GetPodLogs c1CexEnv.logs = Except.ok "ERROR: auth failed".data ∧
    (runPostgresTest c1CexEnv 5 "default" "pocket-postgres-test-1"
      "postgres://pg-svc:5432/db").1 = Except.ok () :=
  ⟨rfl, rfl, rfl⟩

/-- C1 (amended): only the redis test applies the two-sided success
policy — it succeeds exactly when the terminal phase is `Succeeded`
and the trimmed logs contain `PONG` — while the mongo and postgres
tests succeed exactly when the terminal phase is `Succeeded`,
regardless of the log text. -/
theorem c1_success_policy (env : ProbeEnv) (t : Nat) (ns pn conn : String)
    (pod : PodObs) (i : Nat) (raw : List Char)
    (hc : env.clientRes = Except.ok ()) (hcr : env.createRes = Except.ok ())
    (hw : WaitForPodCompletion env.get t = WaitResult.completed pod i)
    (hl : GetPodLogs env.logs = Except.ok raw) :
    ((runRedisTest env t ns pn conn).1 = Except.ok () ↔
      pod.phase = PodPhase.Succeeded ∧
        containsSub pongMarker (trimSpace raw) = true) ∧
    ((runMongoTest env t ns pn conn).1 = Except.ok () ↔
      pod.phase = PodPhase.Succeeded) ∧
    ((runPostgresTest env t ns pn conn).1 = Except.ok () ↔
      pod.phase = PodPhase.Succeeded) := by
  refine ⟨?_, ?_, ?_⟩
  · simp only [runRedisTest, hc, hcr, hw, hl]
    split <;> rename_i h <;> simp [h]
  · simp only [runMongoTest, hc, hcr, hw, hl]
    split <;> rename_i h <;> simp [h]
  · simp only [runPostgresTest, hc, hcr, hw, hl]
    split <;> rename_i h <;> simp [h]

/-- Witness for C1 at a successful redis run: phase `Succeeded` with
output `PONG` (trailing newline) yields a nil error. -/
theorem c1_witness :
    (runRedisTest c1WitEnv 5 "default" "pocket-redis-test-1"
      "redis-svc:6379").1 = Except.ok () :=
  (c1_success_policy c1WitEnv 5 "default" "pocket-redis-test-1"
    "redis-svc:6379" ⟨PodPhase.Succeeded⟩ 0 "PONG\n".data
    rfl rfl rfl rfl).1.mpr ⟨rfl, by decide⟩

/-- C3: in every probe or shell run whose `CreatePod` succeeds (with,
for the test commands, a working client), the trace records exactly
one `DeletePod` invocation, on every exit path — wait error, log
error, failed check, exec error and normal completion alike. -/
theorem c3_delete_exactly_once (envP : ProbeEnv) (envS : ShellEnv) (t : Nat)
    (ns pn conn host port password : String)
    (hc : envP.clientRes = Except.ok ())
    (hcr : envP.createRes = Except.ok ())
    (hcs : envS.createRes = Except.ok ()) :
    deleteCount (runRedisTest envP t ns pn conn).2 = 1 ∧
    deleteCount (runMongoTest envP t ns pn conn).2 = 1 ∧
    deleteCount (runPostgresTest envP t ns pn conn).2 = 1 ∧
    deleteCount (runRedisShell envS ns pn host port password).2 = 1 ∧
    deleteCount (runMongoShell envS ns pn conn).2 = 1 ∧
    deleteCount (runPostgresShell envS ns pn conn).2 = 1 := by
  refine ⟨?_, ?_, ?_, ?_, ?_, ?_⟩
  · simp only [runRedisTest, hc, hcr]
    repeat' split
    all_goals rfl
  · simp only [runMongoTest, hc, hcr]
    repeat' split
    all_goals rfl
  · simp only [runPostgresTest, hc, hcr]
    repeat' split
    all_goals rfl
  · simp only [runRedisShell, runShellWith, hcs]
    repeat' split
    all_goals rfl
  · simp only [runMongoShell, runShellWith, hcs]
    repeat' split
    all_goals rfl
  · simp only [runPostgresShell, runShellWith, hcs]
    repeat' split
    all_goals rfl

/-- Witness for C3: one probe run that times out (an error exit path
whose deletion also fails) and one shell run that completes normally
each record exactly one deletion. -/
theorem c3_witness :
    deleteCount (runRedisTest c3ProbeEnv 2 "default" "pocket-redis-test-1"
      "redis-svc:6379").2 = 1 ∧
    deleteCount (runPostgresShell c3ShellEnv "default" "pocket-postgres-1"
      "postgres://pg-svc:5432/db").2 = 1 :=
  ⟨(c3_delete_exactly_once c3ProbeEnv c3ShellEnv 2 "default"
      "pocket-redis-test-1" "redis-svc:6379" "h" "6379" "" rfl rfl rfl).1,
   (c3_delete_exactly_once c3ProbeEnv c3ShellEnv 2 "default"
      "pocket-postgres-1" "postgres://pg-svc:5432/db" "h" "6379" ""
      rfl rfl rfl).2.2.2.2.2⟩

/-- C4: in every probe and shell run the value returned to the caller
is the same whether the deferred deletion succeeds or fails (the
deletion error is discarded), and every recorded deletion runs under
the fresh bounded context `WithTimeout(Background(), 10s)`, not under
the context of the operation. -/
theorem c4_cleanup_isolated (c cr : Except String Unit)
    (g : Nat → Except String PodObs) (l : LogStream)
    (mr ex : Except String Unit) (d1 d2 : Bool) (t : Nat)
    (ns pn conn host port password : String) :
    ((runRedisTest ⟨c, cr, g, l, d1⟩ t ns pn conn).1 =
      (runRedisTest ⟨c, cr, g, l, d2⟩ t ns pn conn).1) ∧
    ((runMongoTest ⟨c, cr, g, l, d1⟩ t ns pn conn).1 =
      (runMongoTest ⟨c, cr, g, l, d2⟩ t ns pn conn).1) ∧
    ((runPostgresTest ⟨c, cr, g, l, d1⟩ t ns pn conn).1 =
      (runPostgresTest ⟨c, cr, g, l, d2⟩ t ns pn conn).1) ∧
    ((runRedisShell ⟨cr, g, mr, ex, d1⟩ ns pn host port password).1 =
      (runRedisShell ⟨cr, g, mr, ex, d2⟩ ns pn host port password).1) ∧
    ((runMongoShell ⟨cr, g, mr, ex, d1⟩ ns pn conn).1 =
      (runMongoShell ⟨cr, g, mr, ex, d2⟩ ns pn conn).1) ∧
    ((runPostgresShell ⟨cr, g, mr, ex, d1⟩ ns pn conn).1 =
      (runPostgresShell ⟨cr, g, mr, ex, d2⟩ ns pn conn).1) ∧
    deletesUseFreshCtx (runRedisTest ⟨c, cr, g, l, d1⟩ t ns pn conn).2 = true ∧
    deletesUseFreshCtx (runMongoTest ⟨c, cr, g, l, d1⟩ t ns pn conn).2 = true ∧
    deletesUseFreshCtx
      (runPostgresTest ⟨c, cr, g, l, d1⟩ t ns pn conn).2 = true ∧
    deletesUseFreshCtx
      (runRedisShell ⟨cr, g, mr, ex, d1⟩ ns pn host port password).2 = true ∧
    deletesUseFreshCtx (runMongoShell ⟨cr, g, mr, ex, d1⟩ ns pn conn).2 = true ∧
    deletesUseFreshCtx
      (runPostgresShell ⟨cr, g, mr, ex, d1⟩ ns pn conn).2 = true ∧
    cleanupCtx = Ctx.withTimeout Ctx.background 10 := by
  refine ⟨?_, ?_, ?_, ?_, ?_, ?_, ?_, ?_, ?_, ?_, ?_, ?_, rfl⟩
  all_goals
    simp only [runRedisTest, runMongoTest, runPostgresTest, runRedisShell,
      runMongoShell, runPostgresShell, runShellWith]
    repeat' split
    all_goals rfl

/-- Search lemma: `List.find?` returns the first element satisfying
the predicate. -/
theorem findFirstAux {α : Type} (p : α → Bool) :
    ∀ u (a : α) v, p a = true → (∀ b, b ∈ u → p b = false) →
      List.find? p (u ++ a :: v) = some a := by
  intro u
  induction u with
  | nil =>
    intro a v ha _
    rw [List.nil_append, List.find?_cons_of_pos _ ha]
  | cons b u ih =>
    intro a v ha hu
    have hb : ¬ p b = true := by
      simp [hu b (List.mem_cons_self b u)]
    rw [List.cons_append, List.find?_cons_of_neg _ hb]
    exact ih a v ha (fun x hx => hu x (List.mem_cons_of_mem b hx))

/-- Search lemma: `List.find?` returns `none` when no element
satisfies the predicate. -/
theorem findNoneAux {α : Type} (p : α → Bool) :
    ∀ l : List α, (∀ b, b ∈ l → p b = false) → List.find? p l = none := by
  intro l
  induction l with
  | nil => intro _; rfl
  | cons b u ih =>
    intro hu
    have hb : ¬ p b = true := by
      simp [hu b (List.mem_cons_self b u)]
    rw [List.find?_cons_of_neg _ hb]
    exact ih (fun x hx => hu x (List.mem_cons_of_mem b hx))

/-- C5: the alias table lists the claimed candidates in order; target
resolution selects the first candidate whose service exists, fails
when no candidate resolves, fails when the resolved service has an
empty selector, fails when the selector matches no pod, and otherwise
returns the first listed pod whose labels satisfy every selector
pair. -/
theorem c5_target_resolution (w : ClusterNs) :
    (dbAliases "redis" = some (["redis", "redis-master", "redis-svc"], 6379) ∧
     dbAliases "mongo" = some (["mongo", "mongodb", "mongo-svc"], 27017) ∧
     dbAliases "postgres" =
       some (["postgres", "postgresql", "pg", "pg-svc"], 5432)) ∧
    (∀ u n v, (∀ m, m ∈ u → svcByName w m = none) →
      (svcByName w n).isSome = true →
      resolveService w (u ++ n :: v) = some n) ∧
    (∀ names, (∀ m, m ∈ names → svcByName w m = none) →
      resolveTargetNames w names = Except.error "no service found") ∧
    (∀ n svc, svcByName w n = some svc → svc.selector = [] →
      findPodForService w n = Except.error "service has no selector") ∧
    (∀ n svc, svcByName w n = some svc → svc.selector ≠ [] →
      (∀ p, p ∈ w.pods → matchesSelector p.labels svc.selector = false) →
      findPodForService w n = Except.error "no pods found for service") ∧
    (∀ n svc u p v, svcByName w n = some svc → svc.selector ≠ [] →
      w.pods = u ++ p :: v → matchesSelector p.labels svc.selector = true →
      (∀ q, q ∈ u → matchesSelector q.labels svc.selector = false) →
      findPodForService w n = Except.ok p.name) := by
  refine ⟨⟨by decide, by decide, by decide⟩, ?_, ?_, ?_, ?_, ?_⟩
  · intro u n v hu hn
    exact findFirstAux _ u n v hn (fun b hb => by simp [hu b hb])
  · intro names hnone
    have hres : resolveService w names = none :=
      findNoneAux _ names (fun b hb => by simp [hnone b hb])
    simp [resolveTargetNames, hres]
  · intro n svc hsvc hsel
    simp [findPodForService, hsvc, hsel]
  · intro n svc hsvc hsel hnone
    have hfind : List.find?
        (fun p => matchesSelector p.labels svc.selector) w.pods = none :=
      findNoneAux _ w.pods hnone
    simp [findPodForService, hsvc, hsel, hfind]
  · intro n svc u p v hsvc hsel hpods hp hu
    have hfind : List.find?
        (fun q => matchesSelector q.labels svc.selector) w.pods = some p := by
      rw [hpods]
      exact findFirstAux _ u p v hp hu
    simp [findPodForService, hsvc, hsel, hfind]

/-- Witness for C5 in a namespace where, of the redis candidates, only
`redis-svc` exists: the resolved target is the pod backing
`redis-svc`. -/
theorem c5_witness :
    resolveTarget c5World "redis" = Except.ok "redis-pod-0" := by
  have hsvc : resolveService c5World ["redis", "redis-master", "redis-svc"] =
      some "redis-svc" := by
    simpa using (c5_target_resolution c5World).2.1 ["redis", "redis-master"]
      "redis-svc" [] (by decide) (by decide)
  have hpod : findPodForService c5World "redis-svc" =
      Except.ok "redis-pod-0" := by
    simpa using (c5_target_resolution c5World).2.2.2.2.2 "redis-svc"
      ⟨"redis-svc", [("app", "redis")]⟩ [] ⟨"redis-pod-0", [("app", "redis")]⟩
      [] (by decide) (by decide) rfl (by decide) (by simp)
  show resolveTargetNames c5World ["redis", "redis-master", "redis-svc"] =
    Except.ok "redis-pod-0"
  simp [resolveTargetNames, hsvc, hpod]
